import Mathlib

/-!
Verification of the indicator-and-signal engine of the tel_bot repository.

The engine is embedded shallowly over the rationals: Python floats become `ℚ`
(the specification states its numeric properties in exact arithmetic), Python
ints become `ℤ`, Python lists become `List`, a Python function that can return
an empty dict / `None` becomes `Option`, and a Python call that raises becomes
`Except`.  Division by zero follows the `ℚ` convention `x / 0 = 0`; no claim
below exercises that case.  Definitions mirror, line by line:

  * `src/telbot.py`  — `calculate_technical_indicators` (with its nested
    `calculate_ema` and `calculate_rsi`), `analyze_signals`,
    `analyze_cryptocurrency` (its pure core), `format_analysis_message`;
  * `src/signal_generator.py` — `generate_signal`;
  * `src/config.py` — the indicator threshold constants.
-/

namespace TelBot

/-- Arithmetic mean, as `np.mean`: sum divided by length. -/
def mean (xs : List ℚ) : ℚ := xs.sum / (xs.length : ℚ)

/-- The Python slice `xs[-n:]` for `n ≥ 1`: the last `n` elements
(the whole list when it has fewer than `n`). -/
def lastN (n : ℕ) (xs : List ℚ) : List ℚ := xs.drop (xs.length - n)

/-- Numpy `np.diff`: successive differences `xs[i+1] - xs[i]`. -/
def diffs (xs : List ℚ) : List ℚ := List.zipWith (fun a b => b - a) xs xs.tail

/-- The Python element `xs[-k]` for `1 ≤ k ≤ len(xs)`, i.e. `xs[len(xs) - k]`. -/
def nthFromEnd (xs : List ℚ) (k : ℕ) : ℚ := xs.getD (xs.length - k) 0

/-- The EMA recurrence of `telbot.py::calculate_ema`: running list of values,
`prev` is the last EMA value, each new sample `x` contributes
`x * k + prev * (1 - k)`. -/
def emaAux (k : ℚ) (prev : ℚ) : List ℚ → List ℚ
  | [] => [prev]
  | x :: xs => prev :: emaAux k (x * k + prev * (1 - k)) xs

/-- The full EMA sequence: seeded with the first sample (`ema = [data[0]]` in
the source), multiplier `k = 2 / (period + 1)`.  Empty input gives the empty
sequence (the source is never called on an empty list). -/
def emaList (data : List ℚ) (period : ℕ) : List ℚ :=
  match data with
  | [] => []
  | d :: ds => emaAux (2 / ((period : ℚ) + 1)) d ds

/-- Source `telbot.py::calculate_ema` returns only the last EMA value (`ema[-1]`). -/
def calculate_ema (data : List ℚ) (period : ℕ) : ℚ := (emaList data period).getLastD 0

/-- Source `telbot.py::calculate_rsi`.  Returns the neutral 50 when fewer than
`period + 1` prices exist; splits the price deltas into gains and losses,
averages each over the last `period` deltas, returns 100 when the average loss
is zero, else `100 - 100 / (1 + RS)` with `RS = avgGain / avgLoss`. -/
def calculate_rsi (prices : List ℚ) (period : ℕ) : ℚ :=
  if prices.length < period + 1 then 50
  else
    let deltas := diffs prices
    let gains := deltas.map (fun d => if d > 0 then d else 0)
    let losses := deltas.map (fun d => if d < 0 then -d else 0)
    let avg_gain := mean (lastN period gains)
    let avg_loss := mean (lastN period losses)
    if avg_loss = 0 then 100
    else
      let rs := avg_gain / avg_loss
      100 - 100 / (1 + rs)

/-- The indicator record built by `telbot.py::calculate_technical_indicators`.
`sma_30` is `Option` because the source stores `None` when fewer than
30 prices exist. -/
structure Indicators where
  sma_7 : ℚ
  sma_14 : ℚ
  sma_30 : Option ℚ
  ema_12 : ℚ
  ema_26 : ℚ
  rsi : ℚ
  macd : ℚ
  macd_signal : ℚ
  current_price : ℚ
  price_change_24h : ℚ
  price_change_7d : ℚ
deriving DecidableEq

/-- Source `telbot.py::calculate_technical_indicators`: `none` models the empty dict
returned when fewer than 20 prices exist (the `InsufficientData` outcome of the
specification); otherwise the full indicator record. -/
def calculate_technical_indicators (prices : List ℚ) : Option Indicators :=
  if prices.length < 20 then none
  else
    let sma_7 := mean (lastN 7 prices)
    let sma_14 := mean (lastN 14 prices)
    let sma_30 := if 30 ≤ prices.length then some (mean (lastN 30 prices)) else none
    let ema_12 := calculate_ema prices 12
    let ema_26 := calculate_ema prices 26
    let rsi := calculate_rsi prices 14
    let macd_line := ema_12 - ema_26
    let macd_signal := calculate_ema (List.replicate 9 macd_line) 9
    let price_change_24h :=
      if 24 ≤ prices.length then
        (prices.getLastD 0 - nthFromEnd prices 24) / nthFromEnd prices 24 * 100
      else 0
    let price_change_7d :=
      if 168 ≤ prices.length then
        (prices.getLastD 0 - nthFromEnd prices 168) / nthFromEnd prices 168 * 100
      else 0
    some
      { sma_7 := sma_7
        sma_14 := sma_14
        sma_30 := sma_30
        ema_12 := ema_12
        ema_26 := ema_26
        rsi := rsi
        macd := macd_line
        macd_signal := macd_signal
        current_price := prices.getLastD 0
        price_change_24h := price_change_24h
        price_change_7d := price_change_7d }

/-- The record returned by `telbot.py::analyze_signals`. -/
structure SignalResult where
  signals : List String
  score : ℤ
  overall_signal : String
  emoji : String
  confidence : ℤ
deriving DecidableEq

/-- The SMA(7) vs SMA(14) rule of `analyze_signals` (reason string, score
contribution). -/
def smaBlock (ind : Indicators) : List String × ℤ :=
  if ind.sma_7 > ind.sma_14 then (["📈 Short-term bullish (7>14 SMA)"], 1)
  else (["📉 Short-term bearish (7<14 SMA)"], -1)

/-- The SMA(14) vs SMA(30) rule.  The source guards with Python truthiness
(`if indicators[..] and ...` / `elif indicators[..]`), so a `None` value — and
also an exactly-zero value — selects neither branch. -/
def sma30Block (ind : Indicators) : List String × ℤ :=
  match ind.sma_30 with
  | none => ([], 0)
  | some v =>
    if v ≠ 0 ∧ ind.sma_14 > v then (["🚀 Medium-term bullish (14>30 SMA)"], 1)
    else if v ≠ 0 then (["⬇️ Medium-term bearish (14<30 SMA)"], -1)
    else ([], 0)

/-- The RSI band rule: oversold `< 30` (+2), overbought `> 70` (−2), neutral
band `45 ≤ rsi ≤ 55` (note only), otherwise nothing. -/
def rsiBlock (ind : Indicators) : List String × ℤ :=
  if ind.rsi < 30 then (["💎 RSI Oversold - Potential Buy Zone"], 2)
  else if ind.rsi > 70 then (["⚠️ RSI Overbought - Potential Sell Zone"], -2)
  else if 45 ≤ ind.rsi ∧ ind.rsi ≤ 55 then (["⚖️ RSI Neutral"], 0)
  else ([], 0)

/-- The MACD-line vs MACD-signal rule. -/
def macdBlock (ind : Indicators) : List String × ℤ :=
  if ind.macd > ind.macd_signal then (["✅ MACD Bullish Cross"], 1)
  else (["❌ MACD Bearish Cross"], -1)

/-- The volume-surge rule: compares the mean of the last 7 volumes against the
mean of `volumes[-14:-7]` (or against itself when fewer than 14 samples exist);
a strict `recent > older * 1.5` adds +1. -/
def volumeBlock (volumes : List ℚ) : List String × ℤ :=
  if 7 ≤ volumes.length then
    let recent_vol := mean (lastN 7 volumes)
    let older_vol :=
      if 14 ≤ volumes.length then mean ((volumes.drop (volumes.length - 14)).take 7)
      else recent_vol
    if recent_vol > older_vol * (3 / 2) then (["📊 High Volume Surge"], 1)
    else ([], 0)
  else ([], 0)

/-- Source `telbot.py::analyze_signals`.  The source appends the reason string of each rule
to `signals` and adds its contribution to `score` strictly in sequence, and no
rule reads the accumulated state, so the run is exactly the concatenation /
sum of the five independent blocks in source order. -/
def analyze_signals (ind : Indicators) (volumes : List ℚ) : SignalResult :=
  let blocks := [smaBlock ind, sma30Block ind, rsiBlock ind, macdBlock ind, volumeBlock volumes]
  let signals := (blocks.map Prod.fst).flatten
  let score := (blocks.map Prod.snd).sum
  let oe : String × String :=
    if score ≥ 3 then ("STRONG BUY 🟢", "🚀")
    else if score ≥ 1 then ("BUY 🟡", "📈")
    else if score ≤ -3 then ("STRONG SELL 🔴", "📉")
    else if score ≤ -1 then ("SELL 🟠", "⬇️")
    else ("HOLD ⚪", "⚖️")
  { signals := signals
    score := score
    overall_signal := oe.1
    emoji := oe.2
    confidence := min (|score| * 20) 100 }

/-- The score-to-classification mapping exactly as the specification words it:
`score ≥ 3 → STRONG_BUY`; `score ≥ 1 → BUY`; `score ≤ -3 → STRONG_SELL`;
`score ≤ -1 → SELL`; else `HOLD` (labels as the source renders them). -/
def classifySpec (score : ℤ) : String :=
  if score ≥ 3 then "STRONG BUY 🟢"
  else if score ≥ 1 then "BUY 🟡"
  else if score ≤ -3 then "STRONG SELL 🔴"
  else if score ≤ -1 then "SELL 🟠"
  else "HOLD ⚪"

/-- Market data as `fetch_crypto_data` delivers it (prices and volumes;
the unused market caps are omitted). -/
structure MarketData where
  prices : List ℚ
  volumes : List ℚ
deriving DecidableEq

/-- The analysis record returned by `telbot.py::analyze_cryptocurrency`. -/
structure Analysis where
  symbol : String
  timestamp : String
  price : ℚ
  price_change_24h : ℚ
  price_change_7d : ℚ
  rsi : ℚ
  signals : List String
  overall_signal : String
  emoji : String
  confidence : ℤ
  volatility : ℚ
  volume_24h : ℚ
deriving DecidableEq

/-- The pure core of `telbot.py::analyze_cryptocurrency`, after the network
fetch: `none` input models a failed fetch; an empty indicator dict aborts with
`None`.  The wall-clock timestamp and the volatility (a standard deviation of
real logarithms, outside the rational embedding) enter as parameters — neither
affects the control flow. -/
def analyze_cryptocurrency (symbol timestamp : String) (volatility : ℚ)
    (market_data : Option MarketData) : Option Analysis :=
  match market_data with
  | none => none
  | some md =>
    match calculate_technical_indicators md.prices with
    | none => none
    | some ind =>
      let sa := analyze_signals ind md.volumes
      some
        { symbol := symbol.toUpper
          timestamp := timestamp
          price := ind.current_price
          price_change_24h := ind.price_change_24h
          price_change_7d := ind.price_change_7d
          rsi := ind.rsi
          signals := sa.signals
          overall_signal := sa.overall_signal
          emoji := sa.emoji
          confidence := sa.confidence
          volatility := volatility
          volume_24h := md.volumes.getLastD 0 }

/-- Left-pads a digit string with zeros to the requested width. -/
def padZeros (s : String) (len : ℕ) : String :=
  if s.length < len then String.mk (List.replicate (len - s.length) '0') ++ s else s

/-- Fixed-point decimal rendering of a rational with `d` fractional digits,
modelling the `:.Nf` format specifiers of `format_analysis_message` (half-up
rounding; the exact tie-breaking of Python float rendering is immaterial to
every property stated below, which never inspects rendered digits). -/
def formatFixed (d : ℕ) (q : ℚ) : String :=
  let render (x : ℚ) : String :=
    let n : ℕ := ((x.num * 2 + (x.den : ℤ)).ediv (2 * (x.den : ℤ))).toNat
    let ip := n / 10 ^ d
    let fp := n % 10 ^ d
    toString ip ++ "." ++ padZeros (toString fp) d
  if q < 0 then "-" ++ render (-q * (10 : ℚ) ^ d) else render (q * (10 : ℚ) ^ d)

/-- The fixed disclaimer line of `format_analysis_message`, verbatim. -/
def disclaimer : String := "⚠️ *This is educational analysis only, not financial advice*"

/-- Source `telbot.py::format_analysis_message`: the Telegram message template with
every interpolation spelled out as concatenation; the reason section renders
the slice `signals[0:4]` of the reasons, each as a bullet line, in order. -/
def format_analysis_message (a : Analysis) : String :=
  "\n" ++ a.emoji ++ " **" ++ a.symbol ++ " ANALYSIS** " ++ a.emoji ++
  "\n\n💰 **Price:** $" ++ formatFixed 4 a.price ++
  "\n📊 **24h Change:** " ++ formatFixed 2 a.price_change_24h ++
  "%\n📈 **7d Change:** " ++ formatFixed 2 a.price_change_7d ++
  "%\n🎯 **RSI:** " ++ formatFixed 1 a.rsi ++
  "\n\n🚨 **SIGNAL: " ++ a.overall_signal ++
  "**\n🎲 **Confidence:** " ++ toString a.confidence ++
  "%\n\n**📋 Technical Analysis:**\n" ++
  String.join ((a.signals.take 4).map (fun s => "• " ++ s ++ "\n")) ++
  "\n📊 **Volatility:** " ++ formatFixed 2 a.volatility ++
  "%\n⏰ **Updated:** " ++ a.timestamp ++
  "\n\n" ++ disclaimer ++ "\n"

end TelBot

namespace CrossBot

/-- Constant `config.py::RSI_OVERSOLD`. -/
def RSI_OVERSOLD : ℚ := 30

/-- Constant `config.py::RSI_OVERBOUGHT`. -/
def RSI_OVERBOUGHT : ℚ := 70

/-- Modelled from the spec: `src/signal_generator.py` imports `ema`, `rsi` and
`macd` from an `indicators` module that is not part of the source tree
(spec sections 4.1 and 4.2 describe them).  `generate_signal` only reads the
last two samples of the EMA-short, EMA-long, MACD-line and MACD-signal series
and the final RSI value, so those readings enter here as explicit fields. -/
structure CrossInputs where
  ema_short_prev : ℚ
  ema_short_last : ℚ
  ema_long_prev : ℚ
  ema_long_last : ℚ
  macd_prev : ℚ
  macd_last : ℚ
  macd_sig_prev : ℚ
  macd_sig_last : ℚ
  rsi_last : ℚ
deriving DecidableEq

/-- Source `signal_generator.py::generate_signal`, as the source stands.  The EMA
crossover flags are computed, but the next statement,
`current_rsi = rsi(close, RSI_PERIOD).iloc[-1]`, reads the module-level name
`RSI_PERIOD`, which the file does not import from `config` (its import list
names only `RSI_OVERSOLD`, `RSI_OVERBOUGHT`, the `EMA_*` and the `MACD_*`
periods), so in Python every call raises `NameError` there, before the MACD
crossovers and the decision logic are reached. -/
def generate_signal (inp : CrossInputs) : Except String (String × ℚ) :=
  let _cross_up := inp.ema_short_prev < inp.ema_long_prev ∧ inp.ema_long_last < inp.ema_short_last
  let _cross_down := inp.ema_long_prev < inp.ema_short_prev ∧ inp.ema_short_last < inp.ema_long_last
  Except.error "NameError: name RSI_PERIOD is not defined"

/-- The same function with the missing binding supplied (`RSI_PERIOD = 14`
from `config.py` feeds only the RSI computation, already folded into
`rsi_last`): the decision logic of the remaining source lines. -/
def generate_signal_fixed (inp : CrossInputs) : String × ℚ :=
  let cross_up := inp.ema_short_prev < inp.ema_long_prev ∧ inp.ema_long_last < inp.ema_short_last
  let cross_down := inp.ema_long_prev < inp.ema_short_prev ∧ inp.ema_short_last < inp.ema_long_last
  let macd_cross_up := inp.macd_prev < inp.macd_sig_prev ∧ inp.macd_sig_last < inp.macd_last
  let macd_cross_down := inp.macd_sig_prev < inp.macd_prev ∧ inp.macd_last < inp.macd_sig_last
  if cross_up ∧ macd_cross_up ∧ inp.rsi_last < RSI_OVERBOUGHT then ("BUY", inp.rsi_last)
  else if cross_down ∧ macd_cross_down ∧ RSI_OVERSOLD < inp.rsi_last then ("SELL", inp.rsi_last)
  else ("HOLD", inp.rsi_last)

end CrossBot

namespace TelBot

/-- The indicator set named by the specification test vector:
`sma7=110, sma14=100, sma30=90, rsi=25, macd=5, macdSignal=2`
(the fields the scored strategy does not read are zero). -/
def indEx : Indicators :=
  { sma_7 := 110, sma_14 := 100, sma_30 := some 90, ema_12 := 0, ema_26 := 0,
    rsi := 25, macd := 5, macd_signal := 2, current_price := 0,
    price_change_24h := 0, price_change_7d := 0 }

/-- Fourteen zero volumes: the recent-7 mean equals twice the older-7 mean
(both are zero), yet no strict surge exists. -/
def volZero : List ℚ := [0, 0, 0, 0, 0, 0, 0, 0, 0, 0, 0, 0, 0, 0]

/-- Fourteen volumes whose recent-7 mean (2) is twice the older-7 mean (1). -/
def volSurge : List ℚ := [1, 1, 1, 1, 1, 1, 1, 2, 2, 2, 2, 2, 2, 2]

/-- Twenty constant prices, enough for the indicator computation. -/
def pricesFlat : List ℚ := [1, 1, 1, 1, 1, 1, 1, 1, 1, 1, 1, 1, 1, 1, 1, 1, 1, 1, 1, 1]

/-- The indicator record the pipeline produces on `pricesFlat`. -/
def indFlat : Indicators :=
  { sma_7 := 1, sma_14 := 1, sma_30 := none, ema_12 := 1, ema_26 := 1,
    rsi := 100, macd := 0, macd_signal := 0, current_price := 1,
    price_change_24h := 0, price_change_7d := 0 }

/-- A fifteen-point series whose fourteen deltas are all non-negative with one
strictly positive. -/
def pricesRising : List ℚ := [1, 1, 1, 1, 1, 1, 1, 1, 1, 1, 1, 1, 1, 1, 2]

-- Helper lemmas shared by several claim proofs.

/-- Feeding a constant into the EMA recurrence leaves it fixed:
`c * k + c * (1 - k) = c`, so the running list stays constant. -/
theorem emaAux_const (k c : ℚ) (m : ℕ) :
    emaAux k c (List.replicate m c) = List.replicate (m + 1) c := by
  induction m with
  | zero => rfl
  | succ m ih =>
    rw [List.replicate_succ]
    show c :: emaAux k (c * k + c * (1 - k)) (List.replicate m c) = List.replicate (m + 1 + 1) c
    have hc : c * k + c * (1 - k) = c := by ring
    rw [hc, ih, ← List.replicate_succ]

/-- The whole EMA sequence of a constant series is that constant. -/
theorem emaList_const (n : ℕ) (c : ℚ) (m : ℕ) :
    emaList (List.replicate m c) n = List.replicate m c := by
  cases m with
  | zero => rfl
  | succ m =>
    rw [List.replicate_succ]
    show emaAux (2 / ((n : ℚ) + 1)) c (List.replicate m c) = c :: List.replicate m c
    rw [emaAux_const, List.replicate_succ]

/-- Applying `calculate_ema` to nine copies of a value returns that value. -/
theorem calculate_ema_replicate9 (x : ℚ) :
    calculate_ema (List.replicate 9 x) 9 = x := by
  unfold calculate_ema
  rw [emaList_const]
  rfl

/-- If every entry of the last-14 window is non-negative, the loss map sends
the window to zeros and its mean is zero. -/
theorem mean_lastN_losses_zero (l : List ℚ) (hnn : ∀ d ∈ lastN 14 l, 0 ≤ d) :
    mean (lastN 14 (l.map (fun d => if d < 0 then -d else 0))) = 0 := by
  have h1 : lastN 14 (l.map (fun d => if d < 0 then -d else 0))
      = (lastN 14 l).map (fun d => if d < 0 then -d else 0) := by
    unfold lastN
    rw [List.length_map, List.map_drop]
  rw [h1]
  unfold mean
  rw [List.sum_eq_zero, zero_div]
  intro x hx
  obtain ⟨d, hd, rfl⟩ := List.mem_map.mp hx
  simp [not_lt.mpr (hnn d hd)]

/-- Concrete pipeline evaluation: on twenty constant prices the indicator
computation returns `indFlat`. -/
theorem calc_ind_flat : calculate_technical_indicators pricesFlat = some indFlat := by
  have hema12 : calculate_ema pricesFlat 12 = 1 := by
    norm_num [calculate_ema, emaList, emaAux, pricesFlat]
  have hema26 : calculate_ema pricesFlat 26 = 1 := by
    norm_num [calculate_ema, emaList, emaAux, pricesFlat]
  have hrsi : calculate_rsi pricesFlat 14 = 100 := by
    norm_num [calculate_rsi, pricesFlat, diffs, lastN, mean]
  unfold calculate_technical_indicators
  rw [if_neg (by norm_num [pricesFlat])]
  simp only [hema12, hema26, hrsi]
  norm_num [pricesFlat, indFlat, mean, lastN, nthFromEnd, calculate_ema_replicate9,
    Indicators.mk.injEq]

/-- The MACD-bullish reason can only come from the MACD block: the SMA block
never emits it. -/
theorem bull_notin_sma (ind : Indicators) :
    "✅ MACD Bullish Cross" ∉ (smaBlock ind).1 := by
  unfold smaBlock
  split_ifs <;> decide

/-- The SMA(30) block never emits the MACD-bullish reason. -/
theorem bull_notin_sma30 (ind : Indicators) :
    "✅ MACD Bullish Cross" ∉ (sma30Block ind).1 := by
  unfold sma30Block
  split <;> (try split_ifs) <;> decide

/-- The RSI block never emits the MACD-bullish reason. -/
theorem bull_notin_rsi (ind : Indicators) :
    "✅ MACD Bullish Cross" ∉ (rsiBlock ind).1 := by
  unfold rsiBlock
  split_ifs <;> decide

/-- The volume block never emits the MACD-bullish reason. -/
theorem bull_notin_volume (volumes : List ℚ) :
    "✅ MACD Bullish Cross" ∉ (volumeBlock volumes).1 := by
  simp only [volumeBlock]
  split_ifs <;> decide

/-- Claim C1: for every indicator set and volume history the scored strategy
classifies its accumulated score exactly by the cascade `score ≥ 3 →
STRONG_BUY`, else `score ≥ 1 → BUY`, else `score ≤ -3 → STRONG_SELL`, else
`score ≤ -1 → SELL`, else `HOLD`, and returns confidence
`min(|score| * 20, 100)`. -/
theorem analyze_signals_classification (ind : Indicators) (volumes : List ℚ) :
    (analyze_signals ind volumes).overall_signal
      = classifySpec (analyze_signals ind volumes).score ∧
    (analyze_signals ind volumes).confidence
      = min (|(analyze_signals ind volumes).score| * 20) 100 := by
  constructor
  · simp only [analyze_signals, classifySpec]
    split_ifs <;> rfl
  · rfl

/-- Claim C3: with fewer than 15 prices (period 14), the RSI computation
returns the neutral value 50. -/
theorem calculate_rsi_insufficient_neutral (prices : List ℚ)
    (h : prices.length < 15) : calculate_rsi prices 14 = 50 := by
  unfold calculate_rsi
  rw [if_pos (by omega)]

/-- Witness for C3 at the concrete three-point series. -/
theorem calculate_rsi_insufficient_neutral_w :
    ([1, 2, 3] : List ℚ).length < 15 ∧ calculate_rsi [1, 2, 3] 14 = 50 :=
  ⟨by decide, calculate_rsi_insufficient_neutral [1, 2, 3] (by decide)⟩

/-- Claim C4: on a series of at least 15 points whose last 14 deltas are all
non-negative with at least one strictly positive, the average loss is zero and
the RSI computation returns exactly 100. -/
theorem calculate_rsi_no_losses_hundred (prices : List ℚ)
    (h : 15 ≤ prices.length)
    (hnn : ∀ d ∈ lastN 14 (diffs prices), 0 ≤ d)
    (hpos : ∃ d ∈ lastN 14 (diffs prices), 0 < d) :
    calculate_rsi prices 14 = 100 := by
  have hl := mean_lastN_losses_zero (diffs prices) hnn
  simp only [calculate_rsi]
  rw [if_neg (by omega), if_pos hl]

/-- Witness for C4 at `pricesRising = [1 × 14, 2]`. -/
theorem calculate_rsi_no_losses_hundred_w :
    15 ≤ pricesRising.length ∧ calculate_rsi pricesRising 14 = 100 :=
  ⟨by decide, calculate_rsi_no_losses_hundred pricesRising (by decide)
    (by norm_num [pricesRising, diffs, lastN])
    (by norm_num [pricesRising, diffs, lastN])⟩

/-- Claim C8: for every period `n ≥ 1` the EMA of a constant series (all
closes equal to `c`) is exactly `c` at every sample from the first onward. -/
theorem ema_constant_series_exact (n : ℕ) (c : ℚ) (m : ℕ) (hn : 1 ≤ n) :
    emaList (List.replicate m c) n = List.replicate m c :=
  emaList_const n c m

/-- Witness for C8 at period 12, constant 5, three samples. -/
theorem ema_constant_series_exact_w :
    1 ≤ 12 ∧ emaList (List.replicate 3 (5 : ℚ)) 12 = List.replicate 3 5 :=
  ⟨by decide, ema_constant_series_exact 12 5 3 (by decide)⟩

/-- Claim C6: with fewer than 20 prices the indicator computation yields no
indicator set (the empty-dict `InsufficientData` outcome) and the per-symbol
analysis produces no result. -/
theorem short_series_insufficient_data (prices volumes : List ℚ)
    (sym ts : String) (vol : ℚ) (h : prices.length < 20) :
    calculate_technical_indicators prices = none ∧
    analyze_cryptocurrency sym ts vol (some ⟨prices, volumes⟩) = none := by
  have h1 : calculate_technical_indicators prices = none := by
    unfold calculate_technical_indicators
    rw [if_pos h]
  refine ⟨h1, ?_⟩
  simp only [analyze_cryptocurrency]
  rw [h1]

/-- Witness for C6 at a five-point series. -/
theorem short_series_insufficient_data_w :
    (List.replicate 5 (1 : ℚ)).length < 20 ∧
    (calculate_technical_indicators (List.replicate 5 1) = none ∧
     analyze_cryptocurrency "btc" "2026-10-12" 0
       (some ⟨List.replicate 5 1, [3]⟩) = none) :=
  ⟨by decide,
   short_series_insufficient_data (List.replicate 5 1) [3] "btc" "2026-10-12" 0
     (by decide)⟩

/-- Claim C10: the scored classifier is deterministic — two calls on equal
indicator sets and equal volume histories return the same score,
classification, confidence and reason sequence. -/
theorem analyze_signals_deterministic (i1 i2 : Indicators) (v1 v2 : List ℚ)
    (hi : i1 = i2) (hv : v1 = v2) :
    (analyze_signals i1 v1).score = (analyze_signals i2 v2).score ∧
    (analyze_signals i1 v1).overall_signal = (analyze_signals i2 v2).overall_signal ∧
    (analyze_signals i1 v1).confidence = (analyze_signals i2 v2).confidence ∧
    (analyze_signals i1 v1).signals = (analyze_signals i2 v2).signals := by
  subst hi
  subst hv
  exact ⟨rfl, rfl, rfl, rfl⟩

/-- Claim C5: the pipeline computes `macd_signal` as the EMA of nine copies of
the MACD line, which in exact arithmetic equals the MACD line itself, so
`macd > macd_signal` is always false on pipeline-produced indicators and every
invocation of `analyze_signals` on them appends the MACD-bearish reason with a
−1 contribution and never the MACD-bullish reason. -/
theorem pipeline_macd_always_bearish (prices volumes : List ℚ)
    (ind : Indicators) (h : calculate_technical_indicators prices = some ind) :
    ind.macd_signal = calculate_ema (List.replicate 9 ind.macd) 9 ∧
    ind.macd_signal = ind.macd ∧
    macdBlock ind = (["❌ MACD Bearish Cross"], -1) ∧
    "❌ MACD Bearish Cross" ∈ (analyze_signals ind volumes).signals ∧
    "✅ MACD Bullish Cross" ∉ (analyze_signals ind volumes).signals := by
  unfold calculate_technical_indicators at h
  by_cases hl : prices.length < 20
  · rw [if_pos hl] at h
    exact absurd h (by simp)
  · rw [if_neg hl] at h
    simp only [Option.some.injEq] at h
    have hms : ind.macd_signal = calculate_ema (List.replicate 9 ind.macd) 9 := by
      rw [← h]
    have h2 : ind.macd_signal = ind.macd := by
      rw [hms]
      exact calculate_ema_replicate9 _
    have hnotgt : ¬ ind.macd > ind.macd_signal := by
      rw [h2]
      exact lt_irrefl _
    have hmb : macdBlock ind = (["❌ MACD Bearish Cross"], -1) := by
      unfold macdBlock
      rw [if_neg hnotgt]
    have hsig : (analyze_signals ind volumes).signals
        = (smaBlock ind).1 ++ ((sma30Block ind).1 ++ ((rsiBlock ind).1 ++
          ((macdBlock ind).1 ++ ((volumeBlock volumes).1 ++ [])))) := rfl
    refine ⟨hms, h2, hmb, ?_, ?_⟩
    · rw [hsig, hmb]
      simp
    · rw [hsig, hmb]
      simp only [List.mem_append, not_or, List.not_mem_nil, not_false_iff, and_true]
      exact ⟨bull_notin_sma _, bull_notin_sma30 _, bull_notin_rsi _, by decide,
        bull_notin_volume _⟩

/-- Witness for C5 at twenty constant prices. -/
theorem pipeline_macd_always_bearish_w :
    calculate_technical_indicators pricesFlat = some indFlat ∧
    (indFlat.macd_signal = calculate_ema (List.replicate 9 indFlat.macd) 9 ∧
     indFlat.macd_signal = indFlat.macd ∧
     macdBlock indFlat = (["❌ MACD Bearish Cross"], -1) ∧
     "❌ MACD Bearish Cross" ∈ (analyze_signals indFlat volZero).signals ∧
     "✅ MACD Bullish Cross" ∉ (analyze_signals indFlat volZero).signals) :=
  ⟨calc_ind_flat, pipeline_macd_always_bearish pricesFlat volZero indFlat calc_ind_flat⟩

/-- Counterexample for C7 as stated: with the demanded indicator values and an
all-zero volume history the recent-7 mean (0) is at least twice the older-7
mean (0), yet the classifier emits only 4 reason strings — the volume-surge
comparison in the source is strict, so the claimed "at least 5 reasons" fails
even though score 5, `STRONG BUY` and confidence 100 all hold. -/
theorem scored_test_vector_cex :
    indEx.sma_7 = 110 ∧ indEx.sma_14 = 100 ∧ indEx.sma_30 = some 90 ∧
    indEx.rsi = 25 ∧ indEx.macd = 5 ∧ indEx.macd_signal = 2 ∧
    14 ≤ volZero.length ∧
    2 * mean ((volZero.drop (volZero.length - 14)).take 7) ≤ mean (lastN 7 volZero) ∧
    (analyze_signals indEx volZero).signals.length = 4 ∧
    ¬ 5 ≤ (analyze_signals indEx volZero).signals.length := by
  refine ⟨rfl, rfl, rfl, rfl, rfl, rfl, by decide, ?_, ?_, ?_⟩
  · norm_num [volZero, mean, lastN]
  · norm_num [analyze_signals, smaBlock, sma30Block, rsiBlock, macdBlock,
      volumeBlock, indEx, volZero, mean, lastN]
  · norm_num [analyze_signals, smaBlock, sma30Block, rsiBlock, macdBlock,
      volumeBlock, indEx, volZero, mean, lastN]

/-- Claim C7 (amended): the specification test vector, with the preceding-7
volume mean additionally positive (which the 2× surge presupposes; an all-zero
history defeats the strict `> 1.5×` comparison of the source), yields at least
5 reason strings, a score of at least 5, classification `STRONG BUY` and
confidence exactly 100. -/
theorem scored_test_vector_strong_buy (ind : Indicators) (volumes : List ℚ)
    (h7 : ind.sma_7 = 110) (h14 : ind.sma_14 = 100) (h30 : ind.sma_30 = some 90)
    (hr : ind.rsi = 25) (hm : ind.macd = 5) (hs : ind.macd_signal = 2)
    (hlen : 14 ≤ volumes.length)
    (hsurge : 2 * mean ((volumes.drop (volumes.length - 14)).take 7) ≤ mean (lastN 7 volumes))
    (hpos : 0 < mean ((volumes.drop (volumes.length - 14)).take 7)) :
    5 ≤ (analyze_signals ind volumes).signals.length ∧
    5 ≤ (analyze_signals ind volumes).score ∧
    (analyze_signals ind volumes).overall_signal = "STRONG BUY 🟢" ∧
    (analyze_signals ind volumes).confidence = 100 := by
  have hb1 : smaBlock ind = (["📈 Short-term bullish (7>14 SMA)"], 1) := by
    unfold smaBlock
    rw [h7, h14]
    norm_num
  have hb2 : sma30Block ind = (["🚀 Medium-term bullish (14>30 SMA)"], 1) := by
    unfold sma30Block
    rw [h30]
    norm_num [h14]
  have hb3 : rsiBlock ind = (["💎 RSI Oversold - Potential Buy Zone"], 2) := by
    unfold rsiBlock
    rw [hr]
    norm_num
  have hb4 : macdBlock ind = (["✅ MACD Bullish Cross"], 1) := by
    unfold macdBlock
    rw [hm, hs]
    norm_num
  have h7le : 7 ≤ volumes.length := by omega
  have hgt : mean ((volumes.drop (volumes.length - 14)).take 7) * (3 / 2)
      < mean (lastN 7 volumes) := by linarith
  have hb5 : volumeBlock volumes = (["📊 High Volume Surge"], 1) := by
    simp only [volumeBlock]
    rw [if_pos h7le, if_pos hlen, if_pos hgt]
  have hall : analyze_signals ind volumes =
      { signals := ["📈 Short-term bullish (7>14 SMA)",
                    "🚀 Medium-term bullish (14>30 SMA)",
                    "💎 RSI Oversold - Potential Buy Zone",
                    "✅ MACD Bullish Cross",
                    "📊 High Volume Surge"],
        score := 6, overall_signal := "STRONG BUY 🟢", emoji := "🚀",
        confidence := 100 } := by
    unfold analyze_signals
    rw [hb1, hb2, hb3, hb4, hb5]
    norm_num
  rw [hall]
  norm_num

/-- Witness for C7 (amended) at the concrete test indicator set and the
1,…,1,2,…,2 volume history. -/
theorem scored_test_vector_strong_buy_w :
    2 * mean ((volSurge.drop (volSurge.length - 14)).take 7) ≤ mean (lastN 7 volSurge) ∧
    0 < mean ((volSurge.drop (volSurge.length - 14)).take 7) ∧
    (5 ≤ (analyze_signals indEx volSurge).signals.length ∧
     5 ≤ (analyze_signals indEx volSurge).score ∧
     (analyze_signals indEx volSurge).overall_signal = "STRONG BUY 🟢" ∧
     (analyze_signals indEx volSurge).confidence = 100) :=
  ⟨by norm_num [volSurge, mean, lastN], by norm_num [volSurge, mean, lastN],
   scored_test_vector_strong_buy indEx volSurge rfl rfl rfl rfl rfl rfl
     (by decide)
     (by norm_num [volSurge, mean, lastN])
     (by norm_num [volSurge, mean, lastN])⟩

/-- Witness for C10 at the concrete test indicator set and zero volumes. -/
theorem analyze_signals_deterministic_w :
    (analyze_signals indEx volZero).score = (analyze_signals indEx volZero).score ∧
    (analyze_signals indEx volZero).overall_signal = (analyze_signals indEx volZero).overall_signal ∧
    (analyze_signals indEx volZero).confidence = (analyze_signals indEx volZero).confidence ∧
    (analyze_signals indEx volZero).signals = (analyze_signals indEx volZero).signals :=
  analyze_signals_deterministic indEx indEx volZero volZero rfl rfl

/-- Claim C9: for every analysis record the formatter output contains the
symbol, the overall classification label, the fixed disclaimer line verbatim,
and the bullet rendering of at most the first 4 reason strings in the order
the classifier produced them (the formatter is a plain function, hence pure
and deterministic). -/
theorem format_message_contains_fields (a : Analysis) :
    (∃ p s, format_analysis_message a = p ++ (a.symbol ++ s)) ∧
    (∃ p s, format_analysis_message a = p ++ (a.overall_signal ++ s)) ∧
    (∃ p s, format_analysis_message a = p ++ (disclaimer ++ s)) ∧
    (∃ p s, format_analysis_message a
      = p ++ (String.join ((a.signals.take 4).map (fun r => "• " ++ r ++ "\n")) ++ s)) := by
  refine ⟨⟨"\n" ++ a.emoji ++ " **",
    " ANALYSIS** " ++ a.emoji ++ "\n\n💰 **Price:** $" ++ formatFixed 4 a.price ++
    "\n📊 **24h Change:** " ++ formatFixed 2 a.price_change_24h ++
    "%\n📈 **7d Change:** " ++ formatFixed 2 a.price_change_7d ++
    "%\n🎯 **RSI:** " ++ formatFixed 1 a.rsi ++
    "\n\n🚨 **SIGNAL: " ++ a.overall_signal ++
    "**\n🎲 **Confidence:** " ++ toString a.confidence ++
    "%\n\n**📋 Technical Analysis:**\n" ++
    String.join ((a.signals.take 4).map (fun s => "• " ++ s ++ "\n")) ++
    "\n📊 **Volatility:** " ++ formatFixed 2 a.volatility ++
    "%\n⏰ **Updated:** " ++ a.timestamp ++
    "\n\n" ++ disclaimer ++ "\n", ?_⟩,
   ⟨"\n" ++ a.emoji ++ " **" ++ a.symbol ++ " ANALYSIS** " ++ a.emoji ++
    "\n\n💰 **Price:** $" ++ formatFixed 4 a.price ++
    "\n📊 **24h Change:** " ++ formatFixed 2 a.price_change_24h ++
    "%\n📈 **7d Change:** " ++ formatFixed 2 a.price_change_7d ++
    "%\n🎯 **RSI:** " ++ formatFixed 1 a.rsi ++
    "\n\n🚨 **SIGNAL: ",
    "**\n🎲 **Confidence:** " ++ toString a.confidence ++
    "%\n\n**📋 Technical Analysis:**\n" ++
    String.join ((a.signals.take 4).map (fun s => "• " ++ s ++ "\n")) ++
    "\n📊 **Volatility:** " ++ formatFixed 2 a.volatility ++
    "%\n⏰ **Updated:** " ++ a.timestamp ++
    "\n\n" ++ disclaimer ++ "\n", ?_⟩,
   ⟨"\n" ++ a.emoji ++ " **" ++ a.symbol ++ " ANALYSIS** " ++ a.emoji ++
    "\n\n💰 **Price:** $" ++ formatFixed 4 a.price ++
    "\n📊 **24h Change:** " ++ formatFixed 2 a.price_change_24h ++
    "%\n📈 **7d Change:** " ++ formatFixed 2 a.price_change_7d ++
    "%\n🎯 **RSI:** " ++ formatFixed 1 a.rsi ++
    "\n\n🚨 **SIGNAL: " ++ a.overall_signal ++
    "**\n🎲 **Confidence:** " ++ toString a.confidence ++
    "%\n\n**📋 Technical Analysis:**\n" ++
    String.join ((a.signals.take 4).map (fun s => "• " ++ s ++ "\n")) ++
    "\n📊 **Volatility:** " ++ formatFixed 2 a.volatility ++
    "%\n⏰ **Updated:** " ++ a.timestamp ++
    "\n\n", "\n", ?_⟩,
   ⟨"\n" ++ a.emoji ++ " **" ++ a.symbol ++ " ANALYSIS** " ++ a.emoji ++
    "\n\n💰 **Price:** $" ++ formatFixed 4 a.price ++
    "\n📊 **24h Change:** " ++ formatFixed 2 a.price_change_24h ++
    "%\n📈 **7d Change:** " ++ formatFixed 2 a.price_change_7d ++
    "%\n🎯 **RSI:** " ++ formatFixed 1 a.rsi ++
    "\n\n🚨 **SIGNAL: " ++ a.overall_signal ++
    "**\n🎲 **Confidence:** " ++ toString a.confidence ++
    "%\n\n**📋 Technical Analysis:**\n",
    "\n📊 **Volatility:** " ++ formatFixed 2 a.volatility ++
    "%\n⏰ **Updated:** " ++ a.timestamp ++
    "\n\n" ++ disclaimer ++ "\n", ?_⟩⟩ <;>
  simp only [format_analysis_message, String.append_assoc]

end TelBot

namespace CrossBot

/-- Claim C2 (what the source actually does): every call of the crossover
strategy function `generate_signal` raises `NameError` — the function body reads
`RSI_PERIOD`, which `signal_generator.py` never imports from `config` — so the
claimed BUY/SELL/HOLD return behaviour is unreachable as the code stands. -/
theorem generate_signal_always_name_error (inp : CrossInputs) :
    generate_signal inp
      = Except.error "NameError: name RSI_PERIOD is not defined" := rfl

/-- Supporting result: with the missing `RSI_PERIOD` binding supplied, the
decision logic does behave exactly as the specification states — BUY iff EMA
cross-up, MACD cross-up and RSI below the overbought threshold, all at once;
SELL iff the mirror crosses with RSI above the oversold threshold; HOLD in
every other case — and the returned RSI is the current RSI. -/
theorem generate_signal_fixed_cases (inp : CrossInputs) :
    (generate_signal_fixed inp).2 = inp.rsi_last ∧
    ((generate_signal_fixed inp).1 = "BUY" ↔
      ((inp.ema_short_prev < inp.ema_long_prev ∧ inp.ema_long_last < inp.ema_short_last) ∧
       (inp.macd_prev < inp.macd_sig_prev ∧ inp.macd_sig_last < inp.macd_last) ∧
       inp.rsi_last < RSI_OVERBOUGHT)) ∧
    ((generate_signal_fixed inp).1 = "SELL" ↔
      (¬((inp.ema_short_prev < inp.ema_long_prev ∧ inp.ema_long_last < inp.ema_short_last) ∧
         (inp.macd_prev < inp.macd_sig_prev ∧ inp.macd_sig_last < inp.macd_last) ∧
         inp.rsi_last < RSI_OVERBOUGHT) ∧
       ((inp.ema_long_prev < inp.ema_short_prev ∧ inp.ema_short_last < inp.ema_long_last) ∧
        (inp.macd_sig_prev < inp.macd_prev ∧ inp.macd_last < inp.macd_sig_last) ∧
        RSI_OVERSOLD < inp.rsi_last))) := by
  simp only [generate_signal_fixed]
  refine ⟨?_, ?_, ?_⟩
  · split_ifs <;> rfl
  · split_ifs with h1 h2
    · simp [h1]
    · exact ⟨fun hb => by simp at hb, fun hc => absurd hc h1⟩
    · exact ⟨fun hb => by simp at hb, fun hc => absurd hc h1⟩
  · split_ifs with h1 h2
    · exact ⟨fun hb => by simp at hb, fun hc => absurd h1 hc.1⟩
    · simp [h1, h2]
    · exact ⟨fun hb => by simp at hb, fun hc => absurd hc.2 h2⟩

end CrossBot
